import Mathlib

/-!
Shallow embedding of the Realtek Otto SerDes PHY driver
(`target/linux/realtek/files-6.6/drivers/phy/realtek/phy-rtl-otto-serdes.c`).

Hardware access is modelled explicitly:
  * the direct memory-window families (RTL838x, RTL839x) act on a memory
    `Mem : Nat -> Nat` mapping a byte offset (relative to `ctrl->base`) to the
    32-bit word stored there, and also log every `ioread32`/`iowrite32` as an
    event so that "no hardware access" is expressible as an empty event list;
  * the indirect-bus families (RTL930x, RTL931x) read through an oracle
    `o : Nat -> Nat -> Nat` giving the value returned by the t-th read at a
    given relative address, with the read counter `t` threaded through.

Error codes are the errno values used by the source:
  -22 = EINVAL (argument range), -5 = EIO (bus timeout / failed sequence
  step), -13 = EACCES (write on an unmanaged lane).

All u32 arithmetic is done on `Nat` with explicit reductions `% 2^32` at the
points where the C code's 32-bit width matters.
-/

/-- One logged hardware access of a register backend. -/
inductive IOEvent where
  | rd32 (addr : Nat)
  | wr32 (addr : Nat) (val : Nat)
  | sleepRange (lo hi : Nat)
deriving DecidableEq, Repr

/-- Memory window of the direct families: byte offset to stored 32-bit word. -/
def Mem : Type := Nat → Nat

/-- Model of `ioread32` on the memory window (the stored word, as u32). -/
def ioread32 (m : Mem) (addr : Nat) : Nat := m addr % 2 ^ 32

/-- Model of `iowrite32` on the memory window. -/
def iowrite32 (m : Mem) (addr val : Nat) : Mem :=
  fun a => if a = addr then val % 2 ^ 32 else m a

/-- Count the read events at one address in a trace. -/
def countRd (addr : Nat) : List IOEvent → Nat
  | [] => 0
  | IOEvent.rd32 a :: tl => (if a = addr then 1 else 0) + countRd addr tl
  | _ :: tl => countRd addr tl

/-- Count the write events at one address in a trace. -/
def countWr (addr : Nat) : List IOEvent → Nat
  | [] => 0
  | IOEvent.wr32 a _ :: tl => (if a = addr then 1 else 0) + countWr addr tl
  | _ :: tl => countWr addr tl

/-! ## Mode codec (`phy-rtl-otto-serdes.h`) -/

/-- `RTSDS_COMBOMODE(mode, submode) = 0x10000 | (mode << 8) | submode`. -/
def RTSDS_COMBOMODE (mode submode : Nat) : Nat :=
  0x10000 ||| (mode <<< 8) ||| submode

/-- `RTSDS_MODE(combomode) = (combomode >> 8) & 0xff`. -/
def RTSDS_MODE (combomode : Nat) : Nat := (combomode >>> 8) &&& 0xff

/-- `RTSDS_SUBMODE(combomode) = combomode & 0xff`. -/
def RTSDS_SUBMODE (combomode : Nat) : Nat := combomode &&& 0xff

/-! ## RTL838x backend (direct window) -/

/-- `rtsds_838x_offset`. -/
def rtsds_838x_offset (sid page reg : Nat) : Nat :=
  if page = 0 ∨ page = 3 then
    (sid <<< 9) + (page <<< 7) + (reg <<< 2)
  else
    0xb80 + (sid <<< 8) + (page <<< 7) + (reg <<< 2)

/-- `rtsds_838x_read`: bounds check, link-status-latch double read, read. -/
def rtsds_838x_read (m : Mem) (sid page reg : Nat) : Int × List IOEvent :=
  if sid > 5 ∨ page > 3 ∨ reg > 31 then
    (-22, [])
  else
    let offs := rtsds_838x_offset sid page reg
    let pre : List IOEvent := if page = 2 ∧ reg = 1 then [IOEvent.rd32 offs] else []
    (Int.ofNat (ioread32 m offs), pre ++ [IOEvent.rd32 offs])

/-- `rtsds_838x_mask`: bounds check, latch double read, `iomask32` update. -/
def rtsds_838x_mask (m : Mem) (sid page reg val mask : Nat) : Int × Mem × List IOEvent :=
  let val := val % 2 ^ 32
  let mask := mask % 2 ^ 32
  if sid > 5 ∨ page > 3 ∨ reg > 31 then
    (-22, m, [])
  else
    let offs := rtsds_838x_offset sid page reg
    let pre : List IOEvent := if page = 2 ∧ reg = 1 then [IOEvent.rd32 offs] else []
    let newv := (ioread32 m offs &&& (mask ^^^ 0xffffffff)) ||| val
    (0, iowrite32 m offs newv, pre ++ [IOEvent.rd32 offs, IOEvent.wr32 offs newv])

/-! ## RTL839x backend (direct window, bonded pairs sharing 32-bit words) -/

/-- `rtsds_839x_offset`: returns -1 as a "no such register area" marker. -/
def rtsds_839x_offset (sid page reg : Nat) : Int :=
  let offs := ((sid &&& 0xfe) <<< 9) + ((reg &&& 0xfe) <<< 1)
  if page < 4 then
    Int.ofNat (offs + ((sid &&& 1) <<< 8) + (page <<< 6))
  else if page < 8 then
    if sid ≠ 8 ∧ sid ≠ 12 then -1
    else Int.ofNat (offs + 0x100 + (page <<< 6))
  else if page < 10 then
    if sid = 8 ∨ sid = 9 ∨ sid = 12 ∨ sid = 13 then -1
    else Int.ofNat (offs + 0x100 + ((sid &&& 1) <<< 7) + (page <<< 6))
  else
    if sid ≠ 8 ∧ sid ≠ 9 ∧ sid ≠ 12 ∧ sid ≠ 13 then -1
    else Int.ofNat (offs + 0x100 + ((sid &&& 1) <<< 7) + ((page - 2) <<< 6))

/-- `rtsds_839x_read`: even registers live in the low half-word of the shared
32-bit word, odd registers in the high half; a negative offset is a silent
no-op returning 0. -/
def rtsds_839x_read (m : Mem) (sid page reg : Nat) : Int × List IOEvent :=
  let shift := (reg <<< 4) &&& 0x10
  if sid > 13 ∨ page > 11 ∨ reg > 31 then
    (-22, [])
  else
    match rtsds_839x_offset sid page reg with
    | Int.negSucc _ => (0, [])
    | Int.ofNat offs =>
      let pre : List IOEvent := if page = 2 ∧ reg = 1 then [IOEvent.rd32 offs] else []
      (Int.ofNat ((ioread32 m offs >>> shift) &&& 0xffff), pre ++ [IOEvent.rd32 offs])

/-- `rtsds_839x_mask`: read-modify-write of only the half-word owned by `reg`;
a negative offset is a silent no-op returning success. -/
def rtsds_839x_mask (m : Mem) (sid page reg val mask : Nat) : Int × Mem × List IOEvent :=
  let val := val % 2 ^ 32
  let mask := mask % 2 ^ 32
  if sid > 13 ∨ page > 11 ∨ reg > 31 then
    (-22, m, [])
  else
    match rtsds_839x_offset sid page reg with
    | Int.negSucc _ => (0, m, [])
    | Int.ofNat offs =>
      let pre : List IOEvent := if page = 2 ∧ reg = 1 then [IOEvent.rd32 offs] else []
      let oldval := ioread32 m offs
      let newv :=
        if reg &&& 1 ≠ 0 then
          (oldval &&& (((mask <<< 16) % 2 ^ 32) ^^^ 0xffffffff)) ||| ((val <<< 16) % 2 ^ 32)
        else
          (oldval &&& (mask ^^^ 0xffffffff)) ||| val
      (0, iowrite32 m offs newv, pre ++ [IOEvent.rd32 offs, IOEvent.wr32 offs newv])

/-! ## Indirect-bus polling (RTL930x, RTL931x)

The C loop is `while (--cnt && (ioread32(ctrl->base) & 1)) usleep_range(50, 60);`
with `cnt = 100`.  `rtsds_93xx_poll o t cnt` returns the value of `cnt` when the
loop exits, the new read counter and the logged events.  The oracle `o t a`
gives the value of the t-th hardware read when performed at relative address
`a` (the busy/status word lives at relative address 0, the data word at 4). -/

def rtsds_93xx_poll (o : Nat → Nat → Nat) (t : Nat) : Nat → Nat × Nat × List IOEvent
  | 0 => (0, t, [])
  | cnt + 1 =>
    if cnt = 0 then
      (0, t, [])
    else
      let v := o t 0
      if v &&& 1 ≠ 0 then
        let r := rtsds_93xx_poll o (t + 1) cnt
        (r.1, r.2.1, IOEvent.rd32 0 :: IOEvent.sleepRange 50 60 :: r.2.2)
      else
        (cnt, t + 1, [IOEvent.rd32 0])

/-- `rtsds_930x_read`: issue one read command, poll the busy bit, then either
fetch the data word or fail with -EIO. -/
def rtsds_930x_read (o : Nat → Nat → Nat) (t : Nat) (sid page reg : Nat) :
    Int × Nat × List IOEvent :=
  if sid > 11 ∨ page > 63 ∨ reg > 31 then
    (-22, t, [])
  else
    let cmd := (sid <<< 2) ||| (page <<< 7) ||| (reg <<< 13) ||| 1
    let p := rtsds_93xx_poll o t 100
    if p.1 ≠ 0 then
      (Int.ofNat (o p.2.1 4 &&& 0xffff), p.2.1 + 1,
        IOEvent.wr32 0 cmd :: p.2.2 ++ [IOEvent.rd32 4])
    else
      (-5, p.2.1, IOEvent.wr32 0 cmd :: p.2.2)

/-- `rtsds_930x_mask`: for a partial mask first read the old value via a full
bus round trip, then write the merged data word, issue the write command and
poll the busy bit. -/
def rtsds_930x_mask (o : Nat → Nat → Nat) (t : Nat) (sid page reg val mask : Nat) :
    Int × Nat × List IOEvent :=
  let val := val % 2 ^ 32
  let mask := mask % 2 ^ 32
  if sid > 11 ∨ page > 63 ∨ reg > 31 then
    (-22, t, [])
  else
    let cmd := (sid <<< 2) ||| (page <<< 7) ||| (reg <<< 13) ||| 3
    if mask ≠ 0xffff then
      let r := rtsds_930x_read o t sid page reg
      if r.1 < 0 then
        (-5, r.2.1, r.2.2)
      else
        let v := r.1.toNat &&& (mask ^^^ 0xffffffff) ||| val
        let p := rtsds_93xx_poll o r.2.1 100
        (if p.1 ≠ 0 then 0 else -5, p.2.1,
          r.2.2 ++ IOEvent.wr32 4 v :: IOEvent.wr32 0 cmd :: p.2.2)
    else
      let p := rtsds_93xx_poll o t 100
      (if p.1 ≠ 0 then 0 else -5, p.2.1,
        IOEvent.wr32 4 val :: IOEvent.wr32 0 cmd :: p.2.2)

/-- `rtsds_931x_backsid`: remap a frontend (lane, page) onto the background
SerDes that actually serves it. -/
def rtsds_931x_backsid (sid page : Nat) : Nat :=
  let backsid := [0, 1, 2, 3, 6, 7, 10, 11, 14, 15, 18, 19, 22, 23].getD sid 0
  if sid &&& 1 ≠ 0 ∧ sid ≠ 1 then
    backsid + (page >>> 6)
  else if page ≥ 128 then
    backsid + 1
  else
    backsid

/-- `rtsds_931x_read`: like the 930x read but through the backsid remapping. -/
def rtsds_931x_read (o : Nat → Nat → Nat) (t : Nat) (sid page reg : Nat) :
    Int × Nat × List IOEvent :=
  if sid > 13 ∨ page > 191 ∨ reg > 31 then
    (-22, t, [])
  else
    let backsid := rtsds_931x_backsid sid page
    let cmd := (backsid <<< 2) ||| ((page &&& 0x3f) <<< 7) ||| (reg <<< 13) ||| 1
    let p := rtsds_93xx_poll o t 100
    if p.1 ≠ 0 then
      (Int.ofNat (o p.2.1 4 &&& 0xffff), p.2.1 + 1,
        IOEvent.wr32 0 cmd :: p.2.2 ++ [IOEvent.rd32 4])
    else
      (-5, p.2.1, IOEvent.wr32 0 cmd :: p.2.2)

/-- `rtsds_931x_mask`: like the 930x masked write, through the remapping. -/
def rtsds_931x_mask (o : Nat → Nat → Nat) (t : Nat) (sid page reg val mask : Nat) :
    Int × Nat × List IOEvent :=
  let val := val % 2 ^ 32
  let mask := mask % 2 ^ 32
  if sid > 13 ∨ page > 191 ∨ reg > 31 then
    (-22, t, [])
  else
    let backsid := rtsds_931x_backsid sid page
    let cmd := (backsid <<< 2) ||| ((page &&& 0x3f) <<< 7) ||| (reg <<< 13) ||| 3
    if mask ≠ 0xffff then
      let r := rtsds_931x_read o t sid page reg
      if r.1 < 0 then
        (-5, r.2.1, r.2.2)
      else
        let v := r.1.toNat &&& (mask ^^^ 0xffffffff) ||| val
        let p := rtsds_93xx_poll o r.2.1 100
        (if p.1 ≠ 0 then 0 else -5, p.2.1,
          r.2.2 ++ IOEvent.wr32 4 v :: IOEvent.wr32 0 cmd :: p.2.2)
    else
      let p := rtsds_93xx_poll o t 100
      (if p.1 ≠ 0 then 0 else -5, p.2.1,
        IOEvent.wr32 4 val :: IOEvent.wr32 0 cmd :: p.2.2)

/-! ## Sequencer and Controller

The controller level abstracts the family backend behind pure stub functions
(the spec itself suggests call-counting stub backends for these properties)
and logs every lock acquisition, backend invocation and sleep as an event. -/

/-- One `struct rtsds_seq` step record (u16 fields). -/
structure RtsdsSeq where
  action : Nat
  ports : Nat
  page : Nat
  reg : Nat
  val : Nat
  mask : Nat
deriving DecidableEq, Repr

/-- Step action tags from the header. -/
def RTSDS_SEQ_STOP : Nat := 0

/-- Step action tag of a MODIFY step. -/
def RTSDS_SEQ_MASK : Nat := 1

/-- Step action tag of a WAIT step. -/
def RTSDS_SEQ_WAIT : Nat := 2

/-- Controller-level events. -/
inductive CtrlEvent where
  | lock
  | unlock
  | sleepRange (lo hi : Nat)
  | maskCall (sid page reg val mask : Nat) (ret : Int)
  | readCall (sid page reg : Nat)
  | setModeCall (sid hwmode : Nat)
deriving DecidableEq, Repr

/-- Count the sleep events of a controller-level trace. -/
def countSleeps : List CtrlEvent → Nat
  | [] => 0
  | CtrlEvent.sleepRange _ _ :: tl => 1 + countSleeps tl
  | _ :: tl => countSleeps tl

/-- Loop body of `rtsds_run_event` over the loaded step list.  The loader
guarantees a trailing STOP record, so running past the end of the list is
treated like STOP.  `delay` is the pending-delay variable: it is set by an
applicable WAIT step and then tested (and slept) on every further iteration,
the source never resets it. -/
def rtsds_run_steps (f : Nat → Nat → Nat → Nat → Nat → Int) (sid : Nat) :
    List RtsdsSeq → Nat → Int × List CtrlEvent
  | [], _ => (0, [])
  | s :: rest, delay =>
    if s.action = RTSDS_SEQ_STOP then
      (0, [])
    else
      let delay' := if s.action = RTSDS_SEQ_WAIT ∧ s.ports &&& (1 <<< sid) ≠ 0 then
        s.val else delay
      let tr1 : List CtrlEvent :=
        if delay' ≠ 0 then [CtrlEvent.sleepRange (delay' <<< 10) ((delay' <<< 10) + 1000)]
        else []
      if s.action = RTSDS_SEQ_MASK ∧ s.ports &&& (1 <<< sid) ≠ 0 then
        let ret := f sid s.page s.reg s.val s.mask
        if ret ≠ 0 then
          (-5, tr1 ++ [CtrlEvent.maskCall sid s.page s.reg s.val s.mask ret])
        else
          let r := rtsds_run_steps f sid rest delay'
          (r.1, tr1 ++ CtrlEvent.maskCall sid s.page s.reg s.val s.mask ret :: r.2)
      else
        let r := rtsds_run_steps f sid rest delay'
        (r.1, tr1 ++ r.2)

/-- Controller state: family bounds, managed-lane bitmask, loaded scripts,
stub backend functions and the per-lane cached mode. -/
structure CtrlModel where
  max_sds : Nat
  sds_mask : Nat
  sequence : Nat → Option (List RtsdsSeq)
  maskFn : Nat → Nat → Nat → Nat → Nat → Int
  readFn : Nat → Nat → Nat → Int
  setModeFn : Nat → Nat → Int
  modeMap : Nat → Nat
  modeCache : Nat → Nat

/-- `rtsds_run_event`: validate the event id and lane, then replay the loaded
script (a missing script is a successful no-op). -/
def rtsds_run_event (c : CtrlModel) (sid evt : Nat) : Int × List CtrlEvent :=
  if evt > 8 ∨ sid > c.max_sds then
    (-22, [])
  else
    match c.sequence evt with
    | none => (0, [])
    | some steps => rtsds_run_steps c.maskFn sid steps 0

/-- `rtsds_read` (Lane Handle): dispatches straight to the family backend,
with no managed-lane guard and no locking. -/
def rtsds_read (c : CtrlModel) (sid page reg : Nat) : Int × List CtrlEvent :=
  (c.readFn sid page reg, [CtrlEvent.readCall sid page reg])

/-- `rtsds_mask` (Lane Handle): managed-lane guard, then the family backend. -/
def rtsds_mask (c : CtrlModel) (sid page reg val mask : Nat) : Int × List CtrlEvent :=
  if c.sds_mask &&& (1 <<< sid) = 0 then
    (-13, [])
  else
    (c.maskFn sid page reg val mask,
      [CtrlEvent.maskCall sid page reg val mask (c.maskFn sid page reg val mask)])

/-- `rtsds_write` is a masked write with an all-ones 16-bit mask. -/
def rtsds_write (c : CtrlModel) (sid page reg val : Nat) : Int × List CtrlEvent :=
  rtsds_mask c sid page reg val 0xffff

/-- The event ids from the header. -/
def RTSDS_EVENT_INIT : Nat := 1

/-- Event id of the power-on script. -/
def RTSDS_EVENT_POWER_ON : Nat := 2

/-- Event id of the pre-set-mode script. -/
def RTSDS_EVENT_PRE_SET_MODE : Nat := 3

/-- Event id of the post-set-mode script. -/
def RTSDS_EVENT_POST_SET_MODE : Nat := 4

/-- Event id of the pre-reset script. -/
def RTSDS_EVENT_PRE_RESET : Nat := 5

/-- Event id of the post-reset script. -/
def RTSDS_EVENT_POST_RESET : Nat := 6

/-- Event id of the pre-power-off script. -/
def RTSDS_EVENT_PRE_POWER_OFF : Nat := 7

/-- Event id of the post-power-off script. -/
def RTSDS_EVENT_POST_POWER_OFF : Nat := 8

/-- Index of `PHY_INTERFACE_MODE_NA` in the kernel's phy interface mode list. -/
def PHY_INTERFACE_MODE_NA : Nat := 0

/-- `rtsds_phy_set_mode_int`: under the lock, run the pre event, call the
backend mode change, on success update the cached mode and run the post
event.  Returns the result, the new controller state and the event trace. -/
def rtsds_phy_set_mode_int (c : CtrlModel) (sid phymode hwmode : Nat) :
    Int × CtrlModel × List CtrlEvent :=
  let pre := rtsds_run_event c sid RTSDS_EVENT_PRE_SET_MODE
  if pre.1 ≠ 0 then
    (pre.1, c, CtrlEvent.lock :: pre.2 ++ [CtrlEvent.unlock])
  else
    let hwret := c.setModeFn sid hwmode
    if hwret ≠ 0 then
      (hwret, c,
        CtrlEvent.lock :: pre.2 ++ CtrlEvent.setModeCall sid hwmode :: [CtrlEvent.unlock])
    else
      let c' := { c with modeCache := fun i => if i = sid then phymode else c.modeCache i }
      let post := rtsds_run_event c' sid RTSDS_EVENT_POST_SET_MODE
      (post.1, c',
        CtrlEvent.lock :: pre.2 ++ CtrlEvent.setModeCall sid hwmode :: post.2
          ++ [CtrlEvent.unlock])

/-- `rtsds_phy_init`: unmanaged lanes short-circuit to success without any
access; managed lanes run the INIT script under the lock. -/
def rtsds_phy_init (c : CtrlModel) (sid : Nat) : Int × List CtrlEvent :=
  if c.sds_mask &&& (1 <<< sid) = 0 then
    (0, [])
  else
    let r := rtsds_run_event c sid RTSDS_EVENT_INIT
    (r.1, CtrlEvent.lock :: r.2 ++ [CtrlEvent.unlock])

/-- `rtsds_phy_power_on`: like init, with the POWER_ON script. -/
def rtsds_phy_power_on (c : CtrlModel) (sid : Nat) : Int × List CtrlEvent :=
  if c.sds_mask &&& (1 <<< sid) = 0 then
    (0, [])
  else
    let r := rtsds_run_event c sid RTSDS_EVENT_POWER_ON
    (r.1, CtrlEvent.lock :: r.2 ++ [CtrlEvent.unlock])

/-- `rtsds_phy_power_off`: pre event, backend mode change to the family's
"disabled" code, post event, all under the lock. -/
def rtsds_phy_power_off (c : CtrlModel) (sid : Nat) : Int × List CtrlEvent :=
  if c.sds_mask &&& (1 <<< sid) = 0 then
    (0, [])
  else
    let pre := rtsds_run_event c sid RTSDS_EVENT_PRE_POWER_OFF
    if pre.1 ≠ 0 then
      (pre.1, CtrlEvent.lock :: pre.2 ++ [CtrlEvent.unlock])
    else
      let hwret := c.setModeFn sid (c.modeMap PHY_INTERFACE_MODE_NA)
      if hwret ≠ 0 then
        (hwret, CtrlEvent.lock :: pre.2
          ++ CtrlEvent.setModeCall sid (c.modeMap PHY_INTERFACE_MODE_NA) :: [CtrlEvent.unlock])
      else
        let post := rtsds_run_event c sid RTSDS_EVENT_POST_POWER_OFF
        (post.1, CtrlEvent.lock :: pre.2
          ++ CtrlEvent.setModeCall sid (c.modeMap PHY_INTERFACE_MODE_NA) :: post.2
          ++ [CtrlEvent.unlock])

/-! ## Fixed sample inputs used by witnesses and counterexamples -/

/-- All-zero memory window. -/
def memZ : Mem := fun _ => 0

/-- Bus oracle answering 0 to every read (bus never busy, data 0). -/
def oZ : Nat → Nat → Nat := fun _ _ => 0

/-- Bus oracle whose busy bit never clears. -/
def alwaysBusy : Nat → Nat → Nat := fun _ _ => 1

/-! ## C2: out-of-bounds arguments are rejected without hardware access -/

/-- C2: for each of the four family backends, read and masked-write called
with a lane above the family's max lane, or a page above the family's max
page, or a register above 31, return -EINVAL and perform no hardware access:
the memory window is unchanged, the bus read counter does not move and the
access trace is empty. -/
theorem rtsds_bounds_reject_c2 (m : Mem) (o : Nat → Nat → Nat)
    (t sid page reg val mask : Nat) :
    ((sid > 5 ∨ page > 3 ∨ reg > 31) →
      rtsds_838x_read m sid page reg = (-22, []) ∧
      rtsds_838x_mask m sid page reg val mask = (-22, m, [])) ∧
    ((sid > 13 ∨ page > 11 ∨ reg > 31) →
      rtsds_839x_read m sid page reg = (-22, []) ∧
      rtsds_839x_mask m sid page reg val mask = (-22, m, [])) ∧
    ((sid > 11 ∨ page > 63 ∨ reg > 31) →
      rtsds_930x_read o t sid page reg = (-22, t, []) ∧
      rtsds_930x_mask o t sid page reg val mask = (-22, t, [])) ∧
    ((sid > 13 ∨ page > 191 ∨ reg > 31) →
      rtsds_931x_read o t sid page reg = (-22, t, []) ∧
      rtsds_931x_mask o t sid page reg val mask = (-22, t, [])) := by
  refine ⟨fun h => ⟨?_, ?_⟩, fun h => ⟨?_, ?_⟩, fun h => ⟨?_, ?_⟩, fun h => ⟨?_, ?_⟩⟩ <;>
    simp only [rtsds_838x_read, rtsds_838x_mask, rtsds_839x_read, rtsds_839x_mask,
      rtsds_930x_read, rtsds_930x_mask, rtsds_931x_read, rtsds_931x_mask] <;>
    rw [if_pos h]

/-- Witness for C2 at lane 14, page 192, register 32 (out of bounds for all
four families at once). -/
theorem rtsds_bounds_reject_c2_witness :
    rtsds_838x_read memZ 14 192 32 = (-22, []) ∧
    rtsds_838x_mask memZ 14 192 32 1 2 = (-22, memZ, []) ∧
    rtsds_839x_read memZ 14 192 32 = (-22, []) ∧
    rtsds_839x_mask memZ 14 192 32 1 2 = (-22, memZ, []) ∧
    rtsds_930x_read oZ 0 14 192 32 = (-22, 0, []) ∧
    rtsds_930x_mask oZ 0 14 192 32 1 2 = (-22, 0, []) ∧
    rtsds_931x_read oZ 0 14 192 32 = (-22, 0, []) ∧
    rtsds_931x_mask oZ 0 14 192 32 1 2 = (-22, 0, []) := by
  have h := rtsds_bounds_reject_c2 memZ oZ 0 14 192 32 1 2
  exact ⟨(h.1 (by decide)).1, (h.1 (by decide)).2,
    (h.2.1 (by decide)).1, (h.2.1 (by decide)).2,
    (h.2.2.1 (by decide)).1, (h.2.2.1 (by decide)).2,
    (h.2.2.2 (by decide)).1, (h.2.2.2 (by decide)).2⟩

/-! ## C3: writes on unmanaged lanes fail with -EACCES, backend untouched -/

/-- C3: for every lane whose bit is clear in the managed bitmask, the Lane
Handle write and masked-write return -EACCES and produce no backend call at
all (an empty controller trace, so the family mask function is never
invoked). -/
theorem rtsds_unmanaged_guard_c3 (c : CtrlModel) (sid page reg val mask : Nat)
    (h : c.sds_mask &&& (1 <<< sid) = 0) :
    rtsds_mask c sid page reg val mask = (-13, []) ∧
    rtsds_write c sid page reg val = (-13, []) := by
  constructor <;> simp only [rtsds_write, rtsds_mask] <;> rw [if_pos h]

/-- Sample controller managing only lane 0, with inert stub backends. -/
def ctrlZ : CtrlModel :=
  ⟨13, 1, fun _ => none, fun _ _ _ _ _ => 0, fun _ _ _ => 0, fun _ _ => 0,
    fun _ => 0, fun _ => 0⟩

/-- Witness for C3 on unmanaged lane 1 of `ctrlZ`. -/
theorem rtsds_unmanaged_guard_c3_witness :
    rtsds_mask ctrlZ 1 0 3 0x10 0xffff = (-13, []) ∧
    rtsds_write ctrlZ 1 0 3 0x10 = (-13, []) :=
  rtsds_unmanaged_guard_c3 ctrlZ 1 0 3 0x10 0xffff (by decide)

/-! ## C10: RTL839x in-bounds triples with no register area are silent no-ops -/

/-- C10: an in-bounds (lane, page, register) triple whose page range is not
backed for that lane class (the offset helper returns the negative marker,
e.g. pages 4-7 on a lane other than 8 or 12) makes `rtsds_839x_read` return
0 and `rtsds_839x_mask` return success, each with no hardware access and no
argument-range error. -/
theorem rtsds_839x_silent_noop_c10 (m : Mem) (sid page reg val mask : Nat)
    (hs : sid ≤ 13) (hp : page ≤ 11) (hr : reg ≤ 31)
    (hoff : rtsds_839x_offset sid page reg < 0) :
    rtsds_839x_read m sid page reg = (0, []) ∧
    rtsds_839x_mask m sid page reg val mask = (0, m, []) := by
  cases hofs : rtsds_839x_offset sid page reg with
  | ofNat n =>
    rw [hofs] at hoff
    exact absurd hoff (not_lt.mpr (Int.ofNat_nonneg n))
  | negSucc n =>
    constructor
    · simp only [rtsds_839x_read]
      rw [if_neg (by omega : ¬(sid > 13 ∨ page > 11 ∨ reg > 31)), hofs]
    · simp only [rtsds_839x_mask]
      rw [if_neg (by omega : ¬(sid > 13 ∨ page > 11 ∨ reg > 31)), hofs]

/-- Witness for C10: lane 0, page 4, register 0 (pages 4-7 are only backed on
lanes 8 and 12). -/
theorem rtsds_839x_silent_noop_c10_witness :
    rtsds_839x_offset 0 4 0 < 0 ∧
    rtsds_839x_read memZ 0 4 0 = (0, []) ∧
    rtsds_839x_mask memZ 0 4 0 1 2 = (0, memZ, []) :=
  ⟨by decide,
    (rtsds_839x_silent_noop_c10 memZ 0 4 0 1 2 (by decide) (by decide) (by decide)
      (by decide)).1,
    (rtsds_839x_silent_noop_c10 memZ 0 4 0 1 2 (by decide) (by decide) (by decide)
      (by decide)).2⟩

/-! ## C4: pack/unpack roundtrip and the reserved tag bit -/

/-- C4: for every mode and submode in 0..255, unpacking the packed combined
code returns the original pair; every packed code carries the reserved tag
bit 0x10000, so the packed code is never 0 and an un-set (zero) table value
can never be mistaken for a legitimate packed code. -/
theorem rtsds_combomode_roundtrip_c4 (mode submode : Nat)
    (hm : mode ≤ 255) (hs : submode ≤ 255) :
    RTSDS_MODE (RTSDS_COMBOMODE mode submode) = mode ∧
    RTSDS_SUBMODE (RTSDS_COMBOMODE mode submode) = submode ∧
    Nat.testBit (RTSDS_COMBOMODE mode submode) 16 = true ∧
    RTSDS_COMBOMODE mode submode ≠ 0 := by
  have hm' : ∀ j, 8 ≤ j → mode.testBit j = false := by
    intro j hj
    exact Nat.testBit_eq_false_of_lt
      (lt_of_le_of_lt hm (lt_of_lt_of_le (by norm_num : (255 : Nat) < 2 ^ 8)
        (Nat.pow_le_pow_right (by norm_num) hj)))
  have hs' : ∀ j, 8 ≤ j → submode.testBit j = false := by
    intro j hj
    exact Nat.testBit_eq_false_of_lt
      (lt_of_le_of_lt hs (lt_of_lt_of_le (by norm_num : (255 : Nat) < 2 ^ 8)
        (Nat.pow_le_pow_right (by norm_num) hj)))
  have h16 : (0x10000 : Nat) = 2 ^ 16 := by norm_num
  have hff : (0xff : Nat) = 2 ^ 8 - 1 := by norm_num
  have htag : Nat.testBit (RTSDS_COMBOMODE mode submode) 16 = true := by
    simp only [RTSDS_COMBOMODE]
    rw [h16, Nat.testBit_lor, Nat.testBit_lor, Nat.testBit_two_pow]
    simp
  refine ⟨?_, ?_, htag, fun h0 => ?_⟩
  · apply Nat.eq_of_testBit_eq
    intro i
    simp only [RTSDS_MODE, RTSDS_COMBOMODE]
    rw [h16, hff, Nat.testBit_land, Nat.testBit_shiftRight, Nat.testBit_lor,
      Nat.testBit_lor, Nat.testBit_two_pow, Nat.testBit_shiftLeft,
      Nat.testBit_two_pow_sub_one]
    by_cases hi : i < 8
    · rw [show (8 : Nat) + i - 8 = i from by omega, hs' (8 + i) (by omega)]
      simp [hi, show ¬(16 = 8 + i) from by omega, show 8 ≤ 8 + i from by omega]
    · rw [hm' i (by omega), hs' (8 + i) (by omega)]
      simp [hi]
  · apply Nat.eq_of_testBit_eq
    intro i
    simp only [RTSDS_SUBMODE, RTSDS_COMBOMODE]
    rw [h16, hff, Nat.testBit_land, Nat.testBit_lor, Nat.testBit_lor,
      Nat.testBit_two_pow, Nat.testBit_shiftLeft, Nat.testBit_two_pow_sub_one]
    by_cases hi : i < 8
    · simp [hi, show ¬(16 = i) from by omega, show ¬(8 ≤ i) from by omega]
    · rw [hs' i (by omega)]
      simp [hi]
  · rw [h0] at htag
    simp [Nat.zero_testBit] at htag

/-- Witness for C4 at the RTL838x 1000BASE-X code (mode 4, submode 1). -/
theorem rtsds_combomode_roundtrip_c4_witness :
    RTSDS_MODE (RTSDS_COMBOMODE 4 1) = 4 ∧
    RTSDS_SUBMODE (RTSDS_COMBOMODE 4 1) = 1 ∧
    Nat.testBit (RTSDS_COMBOMODE 4 1) 16 = true ∧
    RTSDS_COMBOMODE 4 1 ≠ 0 :=
  rtsds_combomode_roundtrip_c4 4 1 (by decide) (by decide)

/-! ## C6: RTL839x masked writes never touch the paired register's half-word -/

/-- Reading back the word just written returns it (reduced to 32 bits). -/
theorem ioread32_iowrite32_same (m : Mem) (a v : Nat) :
    ioread32 (iowrite32 m a v) a = v % 2 ^ 32 := by
  simp only [ioread32, iowrite32, if_pos rfl]
  exact Nat.mod_mod_of_dvd v dvd_rfl

/-- Flipping the lowest register bit does not change the `reg & 0xfe` field. -/
theorem xor_one_land_fe (r : Nat) : (r ^^^ 1) &&& 0xfe = r &&& 0xfe := by
  rw [Nat.and_xor_distrib_right, show (1 : Nat) &&& 0xfe = 0 from by decide,
    Nat.xor_zero]

/-- A register and its pair live at the same RTL839x word offset. -/
theorem rtsds_839x_offset_pair (sid page reg : Nat) :
    rtsds_839x_offset sid page (reg ^^^ 1) = rtsds_839x_offset sid page reg := by
  simp only [rtsds_839x_offset, xor_one_land_fe]

/-- Flipping the lowest register bit flips its parity. -/
theorem xor_one_mod_two (r : Nat) : (r ^^^ 1) % 2 = 1 - r % 2 := by
  rw [← Nat.and_one_is_mod (r ^^^ 1), Nat.and_xor_distrib_right, Nat.and_one_is_mod r]
  rcases Nat.mod_two_eq_zero_or_one r with h | h <;> rw [h] <;> decide

/-- The RTL839x half-word shift of a register is 16 times its parity. -/
theorem shift839_eq (r : Nat) : (r <<< 4) &&& 0x10 = r % 2 * 16 := by
  apply Nat.eq_of_testBit_eq
  intro i
  conv_lhs => rw [show (0x10 : Nat) = 2 ^ 4 from by norm_num]
  rw [Nat.testBit_land, Nat.testBit_shiftLeft, Nat.testBit_two_pow]
  rcases Nat.mod_two_eq_zero_or_one r with h | h <;> rw [h]
  · by_cases hi : 4 = i
    · subst hi
      simp [Nat.testBit_zero, h, Nat.zero_testBit]
    · simp [hi, Nat.zero_testBit]
  · rw [show (1 : Nat) * 16 = 2 ^ 4 from by norm_num, Nat.testBit_two_pow]
    by_cases hi : 4 = i
    · subst hi
      simp [Nat.testBit_zero, h]
    · simp [hi]

/-- Value returned by an in-bounds `rtsds_839x_read` with a valid offset. -/
theorem rtsds_839x_read_val (m : Mem) (sid page reg offs : Nat)
    (hb : ¬(sid > 13 ∨ page > 11 ∨ reg > 31))
    (hofs : rtsds_839x_offset sid page reg = Int.ofNat offs) :
    (rtsds_839x_read m sid page reg).1
      = Int.ofNat ((ioread32 m offs >>> ((reg <<< 4) &&& 0x10)) &&& 0xffff) := by
  simp only [rtsds_839x_read]
  rw [if_neg hb, hofs]

/-- Memory produced by an in-bounds `rtsds_839x_mask` with a valid offset. -/
theorem rtsds_839x_mask_mem (m : Mem) (sid page reg val mask offs : Nat)
    (hb : ¬(sid > 13 ∨ page > 11 ∨ reg > 31))
    (hofs : rtsds_839x_offset sid page reg = Int.ofNat offs) :
    (rtsds_839x_mask m sid page reg val mask).2.1
      = iowrite32 m offs
          (if reg &&& 1 ≠ 0 then
            (ioread32 m offs &&& ((((mask % 2 ^ 32) <<< 16) % 2 ^ 32) ^^^ 0xffffffff))
              ||| (((val % 2 ^ 32) <<< 16) % 2 ^ 32)
          else
            (ioread32 m offs &&& ((mask % 2 ^ 32) ^^^ 0xffffffff)) ||| (val % 2 ^ 32)) := by
  simp only [rtsds_839x_mask]
  rw [if_neg hb, hofs]

/-- C6: a masked write through `rtsds_839x_mask` with a mask and value that
stay inside the addressed register's own 16-bit half (val, mask < 2^16)
never changes the 16 bits owned by the paired register sharing the same
32-bit physical word: a read of the paired register returns the same value
before and after the write. -/
theorem rtsds_839x_pair_frame_c6 (m : Mem) (sid page reg val mask : Nat)
    (hv : val < 2 ^ 16) (hk : mask < 2 ^ 16) :
    (rtsds_839x_read (rtsds_839x_mask m sid page reg val mask).2.1
        sid page (reg ^^^ 1)).1
      = (rtsds_839x_read m sid page (reg ^^^ 1)).1 := by
  have hv32 : val % 2 ^ 32 = val := Nat.mod_eq_of_lt (lt_trans hv (by norm_num))
  have hk32 : mask % 2 ^ 32 = mask := Nat.mod_eq_of_lt (lt_trans hk (by norm_num))
  by_cases hb : sid > 13 ∨ page > 11 ∨ reg > 31
  · rw [show (rtsds_839x_mask m sid page reg val mask).2.1 = m from by
      simp only [rtsds_839x_mask]; rw [if_pos hb]]
  · cases hofs : rtsds_839x_offset sid page reg with
    | negSucc n =>
      rw [show (rtsds_839x_mask m sid page reg val mask).2.1 = m from by
        simp only [rtsds_839x_mask]; rw [if_neg hb, hofs]]
    | ofNat offs =>
      have hb' := hb
      push_neg at hb'
      have hrx : reg ^^^ 1 ≤ 31 := by
        have h1 : reg < 2 ^ 5 := by omega
        have h2 : (1 : Nat) < 2 ^ 5 := by norm_num
        have := Nat.xor_lt_two_pow h1 h2
        omega
      have hbx : ¬(sid > 13 ∨ page > 11 ∨ reg ^^^ 1 > 31) := by omega
      have hofsx : rtsds_839x_offset sid page (reg ^^^ 1) = Int.ofNat offs := by
        rw [rtsds_839x_offset_pair, hofs]
      rw [rtsds_839x_mask_mem m sid page reg val mask offs hb hofs, hv32, hk32]
      rw [rtsds_839x_read_val _ sid page (reg ^^^ 1) offs hbx hofsx]
      rw [rtsds_839x_read_val m sid page (reg ^^^ 1) offs hbx hofsx]
      rw [ioread32_iowrite32_same]
      congr 1
      rw [shift839_eq (reg ^^^ 1), xor_one_mod_two]
      have hmask' : ∀ j, 16 ≤ j → mask.testBit j = false := by
        intro j hj
        exact Nat.testBit_eq_false_of_lt
          (lt_of_lt_of_le hk (Nat.pow_le_pow_right (by norm_num) hj))
      have hval' : ∀ j, 16 ≤ j → val.testBit j = false := by
        intro j hj
        exact Nat.testBit_eq_false_of_lt
          (lt_of_lt_of_le hv (Nat.pow_le_pow_right (by norm_num) hj))
      rcases Nat.mod_two_eq_zero_or_one reg with hpar | hpar
      · -- even register: the write merges into the low half, the pair owns
        -- the high half (shift 16)
        rw [hpar, if_neg (by rw [Nat.and_one_is_mod]; omega : ¬(reg &&& 1 ≠ 0))]
        rw [show (1 - 0 : Nat) * 16 = 16 from by norm_num]
        apply Nat.eq_of_testBit_eq
        intro i
        rw [show (0xffff : Nat) = 2 ^ 16 - 1 from by norm_num,
          show (0xffffffff : Nat) = 2 ^ 32 - 1 from by norm_num]
        simp only [Nat.testBit_land, Nat.testBit_lor, Nat.testBit_xor,
          Nat.testBit_shiftRight, Nat.testBit_mod_two_pow,
          Nat.testBit_two_pow_sub_one]
        by_cases hi : i < 16
        · rw [hmask' (16 + i) (by omega), hval' (16 + i) (by omega)]
          simp [hi, show 16 + i < 32 from by omega]
        · simp [hi]
      · -- odd register: the write merges into the high half, the pair owns
        -- the low half (shift 0)
        rw [hpar, if_pos (by rw [Nat.and_one_is_mod]; omega : reg &&& 1 ≠ 0)]
        rw [show (1 - 1 : Nat) * 16 = 0 from by norm_num]
        simp only [Nat.shiftRight_zero]
        apply Nat.eq_of_testBit_eq
        intro i
        rw [show (0xffff : Nat) = 2 ^ 16 - 1 from by norm_num,
          show (0xffffffff : Nat) = 2 ^ 32 - 1 from by norm_num]
        simp only [Nat.testBit_land, Nat.testBit_lor, Nat.testBit_xor,
          Nat.testBit_shiftLeft, Nat.testBit_mod_two_pow,
          Nat.testBit_two_pow_sub_one]
        by_cases hi : i < 16
        · simp [hi, show i < 32 from by omega, show ¬(16 ≤ i) from by omega]
        · simp [hi]

/-- Witness for C6: full-mask write to even register 4 of lane 2 leaves the
paired register 5's half-word intact. -/
theorem rtsds_839x_pair_frame_c6_witness :
    (rtsds_839x_read (rtsds_839x_mask (fun _ => 0x12345678) 2 0 4 0xffff 0xffff).2.1
        2 0 (4 ^^^ 1)).1
      = (rtsds_839x_read (fun _ => 0x12345678) 2 0 (4 ^^^ 1)).1 :=
  rtsds_839x_pair_frame_c6 (fun _ => 0x12345678) 2 0 4 0xffff 0xffff
    (by norm_num) (by norm_num)

/-! ## C1: pending-delay semantics of the sequencer -/

/-- Sleep events accumulate over trace concatenation. -/
theorem countSleeps_append (a b : List CtrlEvent) :
    countSleeps (a ++ b) = countSleeps a + countSleeps b := by
  induction a with
  | nil => simp [countSleeps]
  | cons x tl ih => cases x <;> simp [countSleeps, ih, Nat.add_assoc]

/-- Once a pending delay is set, the sequencer sleeps it again before every
following step (none of which is a STOP or WAIT), one sleep per step and
every sleep with the pending delay's own duration, and still completes
successfully when the backend always succeeds. -/
theorem rtsds_run_steps_pending (f : Nat → Nat → Nat → Nat → Nat → Int) (sid : Nat) :
    ∀ (steps : List RtsdsSeq) (d : Nat), d ≠ 0 →
    (∀ s ∈ steps, s.action ≠ RTSDS_SEQ_STOP ∧ s.action ≠ RTSDS_SEQ_WAIT) →
    (∀ a p r v k, f a p r v k = 0) →
    (rtsds_run_steps f sid steps d).1 = 0 ∧
    countSleeps (rtsds_run_steps f sid steps d).2 = steps.length ∧
    (∀ lo hi, CtrlEvent.sleepRange lo hi ∈ (rtsds_run_steps f sid steps d).2 →
      lo = d <<< 10 ∧ hi = (d <<< 10) + 1000) := by
  intro steps
  induction steps with
  | nil =>
    exact fun d _ _ _ => ⟨rfl, rfl, fun lo hi h => absurd h (List.not_mem_nil _)⟩
  | cons s rest ih =>
    intro d hd hall hok
    obtain ⟨hs0, hs2⟩ := hall s (List.mem_cons_self s rest)
    have hall' : ∀ x ∈ rest, x.action ≠ RTSDS_SEQ_STOP ∧ x.action ≠ RTSDS_SEQ_WAIT :=
      fun x hx => hall x (List.mem_cons_of_mem s hx)
    obtain ⟨hih1, hih2, hih3⟩ := ih d hd hall' hok
    simp only [rtsds_run_steps]
    rw [if_neg hs0,
      if_neg (show ¬(s.action = RTSDS_SEQ_WAIT ∧ s.ports &&& (1 <<< sid) ≠ 0) from
        fun h => hs2 h.1),
      if_pos hd]
    by_cases hm : s.action = RTSDS_SEQ_MASK ∧ s.ports &&& (1 <<< sid) ≠ 0
    · rw [if_pos hm, hok sid s.page s.reg s.val s.mask,
        if_neg (by norm_num : ¬((0 : Int) ≠ 0))]
      refine ⟨hih1, ?_, ?_⟩
      · simp [countSleeps_append, countSleeps, hih2]
        omega
      · intro lo hi hmem
        rcases List.mem_append.mp hmem with h1 | h2
        · rw [List.mem_singleton] at h1
          cases h1
          exact ⟨rfl, rfl⟩
        · rcases List.mem_cons.mp h2 with h3 | h4
          · cases h3
          · exact hih3 lo hi h4
    · rw [if_neg hm]
      refine ⟨hih1, ?_, ?_⟩
      · simp [countSleeps_append, countSleeps, hih2]
        omega
      · intro lo hi hmem
        rcases List.mem_append.mp hmem with h1 | h2
        · rw [List.mem_singleton] at h1
          cases h1
          exact ⟨rfl, rfl⟩
        · exact hih3 lo hi h2

/-- Running steps up to a second applicable WAIT and beyond: the first
pending delay `d` is slept before every step of the first segment, and from
the second WAIT on, that WAIT's own value replaces `d` as the slept
duration. -/
theorem rtsds_run_steps_wait_replace (f : Nat → Nat → Nat → Nat → Nat → Int)
    (sid : Nat) (w2 : RtsdsSeq) (rest2 : List RtsdsSeq)
    (hw2 : w2.action = RTSDS_SEQ_WAIT) (hp2 : w2.ports &&& (1 <<< sid) ≠ 0)
    (hd2 : w2.val ≠ 0)
    (hrest2 : ∀ s ∈ rest2, s.action ≠ RTSDS_SEQ_STOP ∧ s.action ≠ RTSDS_SEQ_WAIT)
    (hok : ∀ a p r v k, f a p r v k = 0) :
    ∀ (rest1 : List RtsdsSeq) (d : Nat), d ≠ 0 →
    (∀ s ∈ rest1, s.action ≠ RTSDS_SEQ_STOP ∧ s.action ≠ RTSDS_SEQ_WAIT) →
    (rtsds_run_steps f sid (rest1 ++ w2 :: rest2) d).1 = 0 ∧
    ∃ tr1 tr2,
      (rtsds_run_steps f sid (rest1 ++ w2 :: rest2) d).2 = tr1 ++ tr2 ∧
      countSleeps tr1 = rest1.length ∧
      countSleeps tr2 = 1 + rest2.length ∧
      (∀ lo hi, CtrlEvent.sleepRange lo hi ∈ tr1 →
        lo = d <<< 10 ∧ hi = (d <<< 10) + 1000) ∧
      (∀ lo hi, CtrlEvent.sleepRange lo hi ∈ tr2 →
        lo = w2.val <<< 10 ∧ hi = (w2.val <<< 10) + 1000) := by
  intro rest1
  induction rest1 with
  | nil =>
    intro d hd _
    obtain ⟨hp1', hp2', hp3'⟩ := rtsds_run_steps_pending f sid rest2 w2.val hd2 hrest2 hok
    simp only [List.nil_append, rtsds_run_steps]
    rw [if_neg (show ¬(w2.action = RTSDS_SEQ_STOP) from by rw [hw2]; decide),
      if_pos (show w2.action = RTSDS_SEQ_WAIT ∧ w2.ports &&& (1 <<< sid) ≠ 0 from
        ⟨hw2, hp2⟩),
      if_pos hd2,
      if_neg (show ¬(w2.action = RTSDS_SEQ_MASK ∧ w2.ports &&& (1 <<< sid) ≠ 0) from
        fun h => by rw [hw2] at h; exact absurd h.1 (by decide))]
    refine ⟨hp1', [], CtrlEvent.sleepRange (w2.val <<< 10) ((w2.val <<< 10) + 1000)
      :: (rtsds_run_steps f sid rest2 w2.val).2, by simp, rfl, ?_, ?_, ?_⟩
    · simp [countSleeps, hp2']
    · intro lo hi h
      exact absurd h (List.not_mem_nil _)
    · intro lo hi h
      rcases List.mem_cons.mp h with h1 | h2
      · cases h1
        exact ⟨rfl, rfl⟩
      · exact hp3' lo hi h2
  | cons s rest1' ih =>
    intro d hd hall
    obtain ⟨hs0, hs2⟩ := hall s (List.mem_cons_self s rest1')
    have hall' : ∀ x ∈ rest1', x.action ≠ RTSDS_SEQ_STOP ∧ x.action ≠ RTSDS_SEQ_WAIT :=
      fun x hx => hall x (List.mem_cons_of_mem s hx)
    obtain ⟨ih1, tr1', tr2', htr, hc1, hc2, hdur1, hdur2⟩ := ih d hd hall'
    simp only [List.cons_append, rtsds_run_steps]
    rw [if_neg hs0,
      if_neg (show ¬(s.action = RTSDS_SEQ_WAIT ∧ s.ports &&& (1 <<< sid) ≠ 0) from
        fun h => hs2 h.1),
      if_pos hd]
    by_cases hm : s.action = RTSDS_SEQ_MASK ∧ s.ports &&& (1 <<< sid) ≠ 0
    · rw [if_pos hm, hok sid s.page s.reg s.val s.mask,
        if_neg (by norm_num : ¬((0 : Int) ≠ 0))]
      refine ⟨ih1, CtrlEvent.sleepRange (d <<< 10) ((d <<< 10) + 1000)
        :: CtrlEvent.maskCall sid s.page s.reg s.val s.mask 0 :: tr1', tr2',
        by simp [htr], ?_, hc2, ?_, hdur2⟩
      · simp [countSleeps, hc1]
        omega
      · intro lo hi h
        rcases List.mem_cons.mp h with h1 | h2
        · cases h1
          exact ⟨rfl, rfl⟩
        · rcases List.mem_cons.mp h2 with h3 | h4
          · cases h3
          · exact hdur1 lo hi h4
    · rw [if_neg hm]
      refine ⟨ih1, CtrlEvent.sleepRange (d <<< 10) ((d <<< 10) + 1000) :: tr1', tr2',
        by simp [htr], ?_, hc2, ?_, hdur2⟩
      · simp [countSleeps, hc1]
        omega
      · intro lo hi h
        rcases List.mem_cons.mp h with h1 | h2
        · cases h1
          exact ⟨rfl, rfl⟩
        · exact hdur1 lo hi h2

/-- C1: a run ends successfully at the first STOP step, executing nothing
after it; an applicable WAIT sets the pending delay, which is slept at the
WAIT step itself and again before every following step of the run (the
sequencer never clears it), and a later applicable WAIT replaces the slept
duration with its own value: for a script WAIT(d1), n1 plain steps,
WAIT(d2), n2 plain steps the run sleeps (1 + n1) + (1 + n2) times, the
first segment always with duration d1 << 10 and the second always with
duration d2 << 10. -/
theorem rtsds_seq_wait_c1 (c : CtrlModel) (sid evt : Nat) (w1 w2 : RtsdsSeq)
    (rest1 rest2 : List RtsdsSeq)
    (he : evt ≤ 8) (hsid : sid ≤ c.max_sds)
    (hseq : c.sequence evt = some (w1 :: rest1 ++ w2 :: rest2))
    (hw1 : w1.action = RTSDS_SEQ_WAIT)
    (hp1 : w1.ports &&& (1 <<< sid) ≠ 0)
    (hd1 : w1.val ≠ 0)
    (hw2 : w2.action = RTSDS_SEQ_WAIT)
    (hp2 : w2.ports &&& (1 <<< sid) ≠ 0)
    (hd2 : w2.val ≠ 0)
    (hrest1 : ∀ s ∈ rest1, s.action ≠ RTSDS_SEQ_STOP ∧ s.action ≠ RTSDS_SEQ_WAIT)
    (hrest2 : ∀ s ∈ rest2, s.action ≠ RTSDS_SEQ_STOP ∧ s.action ≠ RTSDS_SEQ_WAIT)
    (hok : ∀ a p r v k, c.maskFn a p r v k = 0) :
    ((rtsds_run_event c sid evt).1 = 0 ∧
      countSleeps (rtsds_run_event c sid evt).2
        = (1 + rest1.length) + (1 + rest2.length) ∧
      ∃ tr1 tr2, (rtsds_run_event c sid evt).2 = tr1 ++ tr2 ∧
        countSleeps tr1 = 1 + rest1.length ∧
        countSleeps tr2 = 1 + rest2.length ∧
        (∀ lo hi, CtrlEvent.sleepRange lo hi ∈ tr1 →
          lo = w1.val <<< 10 ∧ hi = (w1.val <<< 10) + 1000) ∧
        (∀ lo hi, CtrlEvent.sleepRange lo hi ∈ tr2 →
          lo = w2.val <<< 10 ∧ hi = (w2.val <<< 10) + 1000)) ∧
    (∀ (g : Nat → Nat → Nat → Nat → Nat → Int) (sid' : Nat) (w : RtsdsSeq)
      (rest : List RtsdsSeq),
      w.action = RTSDS_SEQ_WAIT → w.ports &&& (1 <<< sid') ≠ 0 → w.val ≠ 0 →
      (∀ s ∈ rest, s.action ≠ RTSDS_SEQ_STOP ∧ s.action ≠ RTSDS_SEQ_WAIT) →
      (∀ a p r v k, g a p r v k = 0) →
      (rtsds_run_steps g sid' (w :: rest) 0).1 = 0 ∧
      countSleeps (rtsds_run_steps g sid' (w :: rest) 0).2 = 1 + rest.length) ∧
    (∀ (g : Nat → Nat → Nat → Nat → Nat → Int) (sid' : Nat) (s' : RtsdsSeq)
      (rest' : List RtsdsSeq) (d : Nat), s'.action = RTSDS_SEQ_STOP →
      rtsds_run_steps g sid' (s' :: rest') d = (0, [])) := by
  refine ⟨?_, ?_, ?_⟩
  · obtain ⟨h0, tr1', tr2', htr, hc1, hc2, hdur1, hdur2⟩ :=
      rtsds_run_steps_wait_replace c.maskFn sid w2 rest2 hw2 hp2 hd2 hrest2 hok
        rest1 w1.val hd1 hrest1
    simp only [rtsds_run_event]
    rw [if_neg (by omega : ¬(evt > 8 ∨ sid > c.max_sds)), hseq]
    simp only [rtsds_run_steps]
    rw [if_neg (show ¬(w1.action = RTSDS_SEQ_STOP) from by rw [hw1]; decide),
      if_pos (show w1.action = RTSDS_SEQ_WAIT ∧ w1.ports &&& (1 <<< sid) ≠ 0 from
        ⟨hw1, hp1⟩),
      if_pos hd1,
      if_neg (show ¬(w1.action = RTSDS_SEQ_MASK ∧ w1.ports &&& (1 <<< sid) ≠ 0) from
        fun h => by rw [hw1] at h; exact absurd h.1 (by decide))]
    refine ⟨h0, ?_,
      CtrlEvent.sleepRange (w1.val <<< 10) ((w1.val <<< 10) + 1000) :: tr1', tr2',
      by simp [htr], ?_, hc2, ?_, hdur2⟩
    · simp [countSleeps_append, countSleeps, htr, hc1, hc2]
      omega
    · simp [countSleeps, hc1]
    · intro lo hi h
      rcases List.mem_cons.mp h with h1 | h2
      · cases h1
        exact ⟨rfl, rfl⟩
      · exact hdur1 lo hi h2
  · intro g sid' w rest hw hp hdv hrest hok'
    obtain ⟨hpend1, hpend2, _⟩ := rtsds_run_steps_pending g sid' rest w.val hdv hrest hok'
    simp only [rtsds_run_steps]
    rw [if_neg (show ¬(w.action = RTSDS_SEQ_STOP) from by rw [hw]; decide),
      if_pos (show w.action = RTSDS_SEQ_WAIT ∧ w.ports &&& (1 <<< sid') ≠ 0 from
        ⟨hw, hp⟩),
      if_pos hdv,
      if_neg (show ¬(w.action = RTSDS_SEQ_MASK ∧ w.ports &&& (1 <<< sid') ≠ 0) from
        fun h => by rw [hw] at h; exact absurd h.1 (by decide))]
    refine ⟨hpend1, ?_⟩
    simp [countSleeps_append, countSleeps, hpend2]
  · intro g sid' s' rest' d h
    simp only [rtsds_run_steps]
    rw [if_pos h]

/-- Script steps shared by the sequencer examples: a 1-unit WAIT on all
lanes. -/
def seqWait1 : RtsdsSeq := ⟨2, 0xffff, 0, 0, 1, 0⟩

/-- A 5-unit WAIT on all lanes. -/
def seqWait5 : RtsdsSeq := ⟨2, 0xffff, 0, 0, 5, 0⟩

/-- A MODIFY step of page 0, register 3, value 0x10, full mask, all lanes. -/
def seqMask1 : RtsdsSeq := ⟨1, 0xffff, 0, 3, 0x10, 0xffff⟩

/-- A STOP step. -/
def seqStop : RtsdsSeq := ⟨0, 0, 0, 0, 0, 0⟩

/-- Controller whose power-on script is WAIT, MODIFY, MODIFY, STOP, with an
always-succeeding stub backend. -/
def ctrlC1 : CtrlModel :=
  ⟨13, 0xffff, fun e => if e = 2 then some [seqWait1, seqMask1, seqMask1, seqStop] else none,
    fun _ _ _ _ _ => 0, fun _ _ _ => 0, fun _ _ => 0, fun _ => 0, fun _ => 0⟩

/-- Controller whose power-on script is WAIT(1), MODIFY, WAIT(5), MODIFY
with the STOP left implicit (the loader's appended stop marker). -/
def ctrlC1rep : CtrlModel :=
  ⟨13, 0xffff, fun e => if e = 2 then some [seqWait1, seqMask1, seqWait5, seqMask1] else none,
    fun _ _ _ _ _ => 0, fun _ _ _ => 0, fun _ _ => 0, fun _ => 0, fun _ => 0⟩

/-- Counterexample for C1 as stated: running WAIT(1), MODIFY, MODIFY, STOP on
lane 2 sleeps three times, not once — the pending delay is re-slept before
every subsequent step instead of being consumed by the next applicable
step. -/
theorem rtsds_seq_wait_resleep_c1_cex :
    (rtsds_run_event ctrlC1 2 RTSDS_EVENT_POWER_ON).1 = 0 ∧
    countSleeps (rtsds_run_event ctrlC1 2 RTSDS_EVENT_POWER_ON).2 = 3 ∧
    countSleeps (rtsds_run_event ctrlC1 2 RTSDS_EVENT_POWER_ON).2 ≠ 1 :=
  ⟨by decide, by decide, by decide⟩

/-- Witness for C1 (amended) on the WAIT(1), MODIFY, WAIT(5), MODIFY
script. -/
theorem rtsds_seq_wait_c1_witness :
    ((rtsds_run_event ctrlC1rep 2 RTSDS_EVENT_POWER_ON).1 = 0 ∧
      countSleeps (rtsds_run_event ctrlC1rep 2 RTSDS_EVENT_POWER_ON).2
        = (1 + List.length [seqMask1]) + (1 + List.length [seqMask1]) ∧
      ∃ tr1 tr2, (rtsds_run_event ctrlC1rep 2 RTSDS_EVENT_POWER_ON).2 = tr1 ++ tr2 ∧
        countSleeps tr1 = 1 + List.length [seqMask1] ∧
        countSleeps tr2 = 1 + List.length [seqMask1] ∧
        (∀ lo hi, CtrlEvent.sleepRange lo hi ∈ tr1 →
          lo = seqWait1.val <<< 10 ∧ hi = (seqWait1.val <<< 10) + 1000) ∧
        (∀ lo hi, CtrlEvent.sleepRange lo hi ∈ tr2 →
          lo = seqWait5.val <<< 10 ∧ hi = (seqWait5.val <<< 10) + 1000)) ∧
    (∀ (g : Nat → Nat → Nat → Nat → Nat → Int) (sid' : Nat) (w : RtsdsSeq)
      (rest : List RtsdsSeq),
      w.action = RTSDS_SEQ_WAIT → w.ports &&& (1 <<< sid') ≠ 0 → w.val ≠ 0 →
      (∀ s ∈ rest, s.action ≠ RTSDS_SEQ_STOP ∧ s.action ≠ RTSDS_SEQ_WAIT) →
      (∀ a p r v k, g a p r v k = 0) →
      (rtsds_run_steps g sid' (w :: rest) 0).1 = 0 ∧
      countSleeps (rtsds_run_steps g sid' (w :: rest) 0).2 = 1 + rest.length) ∧
    (∀ (g : Nat → Nat → Nat → Nat → Nat → Int) (sid' : Nat) (s' : RtsdsSeq)
      (rest' : List RtsdsSeq) (d : Nat), s'.action = RTSDS_SEQ_STOP →
      rtsds_run_steps g sid' (s' :: rest') d = (0, [])) :=
  rtsds_seq_wait_c1 ctrlC1rep 2 RTSDS_EVENT_POWER_ON seqWait1 seqWait5
    [seqMask1] [seqMask1] (by decide) (by decide) (by decide) (by decide)
    (by decide) (by decide) (by decide) (by decide) (by decide) (by decide)
    (by decide) (fun _ _ _ _ _ => rfl)
/-! ## C7: a failing MODIFY step aborts the run -/

/-- Conditional sleep lists contain no backend-call event. -/
theorem maskCall_not_mem_sleep (c : Prop) [Decidable c] (u w a p r v k : Nat)
    (e : Int) :
    CtrlEvent.maskCall a p r v k e ∉
      (if c then [CtrlEvent.sleepRange u w] else []) := by
  split <;> simp

/-- C7 (amended): whenever a sequence run fails, it fails with the fixed
error -EIO (not the backend's own error code); the trace ends exactly at the
failing backend call — no later step of the script is executed and nothing
is rolled back — while every backend call before it succeeded. -/
theorem rtsds_seq_abort_c7 (f : Nat → Nat → Nat → Nat → Nat → Int) (sid : Nat) :
    ∀ (steps : List RtsdsSeq) (d : Nat),
    (rtsds_run_steps f sid steps d).1 ≠ 0 →
    (rtsds_run_steps f sid steps d).1 = -5 ∧
    ∃ t1 p r v k,
      (rtsds_run_steps f sid steps d).2
        = t1 ++ [CtrlEvent.maskCall sid p r v k (f sid p r v k)] ∧
      f sid p r v k ≠ 0 ∧
      (∀ a p' r' v' k' e, CtrlEvent.maskCall a p' r' v' k' e ∈ t1 → e = 0) := by
  intro steps
  induction steps with
  | nil =>
    intro d h
    exact absurd rfl h
  | cons s rest ih =>
    intro d
    simp only [rtsds_run_steps]
    by_cases h0 : s.action = RTSDS_SEQ_STOP
    · rw [if_pos h0]
      intro h
      exact absurd rfl h
    · rw [if_neg h0]
      set D := if s.action = RTSDS_SEQ_WAIT ∧ s.ports &&& (1 <<< sid) ≠ 0 then
        s.val else d with hD
      set tr1 := if D ≠ 0 then
        [CtrlEvent.sleepRange (D <<< 10) (D <<< 10 + 1000)] else [] with hT1
      have hnm : ∀ (a p' r' v' k' : Nat) (e : Int),
          CtrlEvent.maskCall a p' r' v' k' e ∉ tr1 := by
        rw [hT1]
        intro a p' r' v' k' e
        exact maskCall_not_mem_sleep _ _ _ a p' r' v' k' e
      by_cases hm : s.action = RTSDS_SEQ_MASK ∧ s.ports &&& (1 <<< sid) ≠ 0
      · rw [if_pos hm]
        by_cases hr : f sid s.page s.reg s.val s.mask ≠ 0
        · rw [if_pos hr]
          intro _
          exact ⟨rfl, tr1, s.page, s.reg, s.val, s.mask, rfl, hr,
            fun a p' r' v' k' e hmem => absurd hmem (hnm a p' r' v' k' e)⟩
        · rw [if_neg hr]
          intro h
          push_neg at hr
          obtain ⟨ih1, t1, p, r, v, k, htr, hne, hprev⟩ := ih D h
          refine ⟨ih1, tr1 ++ CtrlEvent.maskCall sid s.page s.reg s.val s.mask
            (f sid s.page s.reg s.val s.mask) :: t1, p, r, v, k, ?_, hne, ?_⟩
          · simp [htr]
          · intro a p' r' v' k' e hmem
            rcases List.mem_append.mp hmem with hmem1 | hmem2
            · exact absurd hmem1 (hnm a p' r' v' k' e)
            · rcases List.mem_cons.mp hmem2 with heq | hmem3
              · cases heq
                exact hr
              · exact hprev a p' r' v' k' e hmem3
      · rw [if_neg hm]
        intro h
        obtain ⟨ih1, t1, p, r, v, k, htr, hne, hprev⟩ := ih D h
        refine ⟨ih1, tr1 ++ t1, p, r, v, k, ?_, hne, ?_⟩
        · simp [htr]
        · intro a p' r' v' k' e hmem
          rcases List.mem_append.mp hmem with hmem1 | hmem2
          · exact absurd hmem1 (hnm a p' r' v' k' e)
          · exact hprev a p' r' v' k' e hmem2

/-- Controller whose init script is MODIFY, STOP, with a stub backend that
always fails with -EINVAL. -/
def ctrlC7 : CtrlModel :=
  ⟨13, 0xffff, fun e => if e = 1 then some [seqMask1, seqStop] else none,
    fun _ _ _ _ _ => -22, fun _ _ _ => 0, fun _ _ => 0, fun _ => 0, fun _ => 0⟩

/-- Counterexample for C7 as stated: when the backend fails with -EINVAL the
run returns the fixed -EIO, not that backend error. -/
theorem rtsds_seq_abort_c7_cex :
    (rtsds_run_event ctrlC7 2 RTSDS_EVENT_INIT).1 = -5 ∧
    ctrlC7.maskFn 2 0 3 0x10 0xffff = -22 ∧
    (rtsds_run_event ctrlC7 2 RTSDS_EVENT_INIT).1 ≠ ctrlC7.maskFn 2 0 3 0x10 0xffff :=
  ⟨by decide, by decide, by decide⟩

/-- Witness for C7 (amended) on the failing MODIFY, STOP script. -/
theorem rtsds_seq_abort_c7_witness :
    (rtsds_run_steps (fun _ _ _ _ _ => (-22 : Int)) 2 [seqMask1, seqStop] 0).1 = -5 ∧
    ∃ t1 p r v k,
      (rtsds_run_steps (fun _ _ _ _ _ => (-22 : Int)) 2 [seqMask1, seqStop] 0).2
        = t1 ++ [CtrlEvent.maskCall 2 p r v k
            ((fun _ _ _ _ _ => (-22 : Int)) 2 p r v k)] ∧
      (fun _ _ _ _ _ => (-22 : Int)) 2 p r v k ≠ 0 ∧
      (∀ a p' r' v' k' e, CtrlEvent.maskCall a p' r' v' k' e ∈ t1 → e = 0) :=
  rtsds_seq_abort_c7 (fun _ _ _ _ _ => (-22 : Int)) 2 [seqMask1, seqStop] 0 (by decide)

/-! ## C8: cached mode updates during set_mode -/

/-- C8 (amended): the cached lane mode is updated exactly when the pre event
and the underlying backend mode-change call both succeed — never when the
backend call fails — but a post-set-mode event failure still returns an
error with the cache already holding the new target; other lanes' cached
modes are never touched. -/
theorem rtsds_set_mode_cache_c8 (c : CtrlModel) (sid phymode hwmode : Nat) :
    ((rtsds_phy_set_mode_int c sid phymode hwmode).2.1.modeCache sid
      = if (rtsds_run_event c sid RTSDS_EVENT_PRE_SET_MODE).1 = 0
            ∧ c.setModeFn sid hwmode = 0
        then phymode else c.modeCache sid) ∧
    (∀ j, j ≠ sid →
      (rtsds_phy_set_mode_int c sid phymode hwmode).2.1.modeCache j
        = c.modeCache j) := by
  simp only [rtsds_phy_set_mode_int]
  by_cases h1 : (rtsds_run_event c sid RTSDS_EVENT_PRE_SET_MODE).1 ≠ 0
  · rw [if_pos h1]
    exact ⟨by rw [if_neg (fun hand => h1 hand.1)], fun j _ => rfl⟩
  · rw [if_neg h1]
    push_neg at h1
    by_cases h2 : c.setModeFn sid hwmode ≠ 0
    · rw [if_pos h2]
      exact ⟨by rw [if_neg (fun hand => h2 hand.2)], fun j _ => rfl⟩
    · rw [if_neg h2]
      push_neg at h2
      constructor
      · rw [if_pos ⟨h1, h2⟩]
        simp
      · intro j hj
        simp [hj]

/-- Controller whose post-set-mode script is a failing MODIFY: the backend
mode change itself succeeds, the post event fails. -/
def ctrlC8 : CtrlModel :=
  ⟨13, 0xffff, fun e => if e = 4 then some [seqMask1, seqStop] else none,
    fun _ _ _ _ _ => -22, fun _ _ _ => 0, fun _ _ => 0, fun _ => 0, fun _ => 99⟩

/-- Counterexample for C8 as stated: the transition returns an error (the
post-set-mode event failed) yet the cached mode was changed from 99 to the
new target 7. -/
theorem rtsds_set_mode_cache_c8_cex :
    (rtsds_phy_set_mode_int ctrlC8 0 7 0x10000).1 ≠ 0 ∧
    (rtsds_phy_set_mode_int ctrlC8 0 7 0x10000).2.1.modeCache 0 = 7 ∧
    ctrlC8.modeCache 0 = 99 :=
  ⟨by decide, by decide, by decide⟩

/-- Witness for C8 (amended) on `ctrlC8`, lane 0. -/
theorem rtsds_set_mode_cache_c8_witness :
    ((rtsds_phy_set_mode_int ctrlC8 0 7 0x10000).2.1.modeCache 0
      = if (rtsds_run_event ctrlC8 0 RTSDS_EVENT_PRE_SET_MODE).1 = 0
            ∧ ctrlC8.setModeFn 0 0x10000 = 0
        then 7 else ctrlC8.modeCache 0) ∧
    (rtsds_phy_set_mode_int ctrlC8 0 7 0x10000).2.1.modeCache 5
      = ctrlC8.modeCache 5 := by
  have h := rtsds_set_mode_cache_c8 ctrlC8 0 7 0x10000
  exact ⟨h.1, h.2 5 (by decide)⟩

/-! ## C9: lock discipline of the controller operations -/

/-- Sequencer traces contain neither lock nor unlock events. -/
theorem rtsds_run_steps_no_lock (f : Nat → Nat → Nat → Nat → Nat → Int) (sid : Nat) :
    ∀ (steps : List RtsdsSeq) (d : Nat),
      CtrlEvent.lock ∉ (rtsds_run_steps f sid steps d).2 ∧
      CtrlEvent.unlock ∉ (rtsds_run_steps f sid steps d).2 := by
  intro steps
  induction steps with
  | nil => exact fun d => ⟨by simp [rtsds_run_steps], by simp [rtsds_run_steps]⟩
  | cons s rest ih =>
    intro d
    simp only [rtsds_run_steps]
    by_cases h0 : s.action = RTSDS_SEQ_STOP
    · rw [if_pos h0]
      exact ⟨by simp, by simp⟩
    · rw [if_neg h0]
      set D := if s.action = RTSDS_SEQ_WAIT ∧ s.ports &&& (1 <<< sid) ≠ 0 then
        s.val else d with hD
      set tr1 := if D ≠ 0 then
        [CtrlEvent.sleepRange (D <<< 10) (D <<< 10 + 1000)] else [] with hT1
      have hl1 : CtrlEvent.lock ∉ tr1 ∧ CtrlEvent.unlock ∉ tr1 := by
        rw [hT1]
        constructor <;> split <;> simp
      by_cases hm : s.action = RTSDS_SEQ_MASK ∧ s.ports &&& (1 <<< sid) ≠ 0
      · rw [if_pos hm]
        by_cases hr : f sid s.page s.reg s.val s.mask ≠ 0
        · rw [if_pos hr]
          constructor <;> simp [List.mem_append, hl1.1, hl1.2]
        · rw [if_neg hr]
          constructor <;>
            simp [List.mem_append, hl1.1, hl1.2, (ih D).1, (ih D).2]
      · rw [if_neg hm]
        constructor <;> simp [List.mem_append, hl1.1, hl1.2, (ih D).1, (ih D).2]

/-- Event-script replays contain neither lock nor unlock events. -/
theorem rtsds_run_event_no_lock (c : CtrlModel) (sid evt : Nat) :
    CtrlEvent.lock ∉ (rtsds_run_event c sid evt).2 ∧
    CtrlEvent.unlock ∉ (rtsds_run_event c sid evt).2 := by
  simp only [rtsds_run_event]
  split
  · exact ⟨by simp, by simp⟩
  · split
    · exact ⟨by simp, by simp⟩
    · exact rtsds_run_steps_no_lock c.maskFn sid _ 0

/-- C9 (amended): the set-mode lifecycle transition holds the controller
lock for its entire duration — its trace is a single lock acquisition, then
lock-free work, then the final release — but the Lane Handle read, write and
masked-write paths perform their backend register access without ever
acquiring (or releasing) the lock. -/
theorem rtsds_lock_held_c9 (c : CtrlModel) (sid phymode hwmode page reg val mask : Nat) :
    (∃ mid, (rtsds_phy_set_mode_int c sid phymode hwmode).2.2
        = CtrlEvent.lock :: mid ++ [CtrlEvent.unlock] ∧
      CtrlEvent.lock ∉ mid ∧ CtrlEvent.unlock ∉ mid) ∧
    ((rtsds_read c sid page reg).2 = [CtrlEvent.readCall sid page reg] ∧
      CtrlEvent.lock ∉ (rtsds_read c sid page reg).2 ∧
      CtrlEvent.unlock ∉ (rtsds_read c sid page reg).2) ∧
    (CtrlEvent.lock ∉ (rtsds_mask c sid page reg val mask).2 ∧
      CtrlEvent.unlock ∉ (rtsds_mask c sid page reg val mask).2) ∧
    (CtrlEvent.lock ∉ (rtsds_write c sid page reg val).2 ∧
      CtrlEvent.unlock ∉ (rtsds_write c sid page reg val).2) := by
  have hpre := rtsds_run_event_no_lock c sid RTSDS_EVENT_PRE_SET_MODE
  have hmask : ∀ (v k : Nat), CtrlEvent.lock ∉ (rtsds_mask c sid page reg v k).2 ∧
      CtrlEvent.unlock ∉ (rtsds_mask c sid page reg v k).2 := by
    intro v k
    simp only [rtsds_mask]
    split <;> constructor <;> simp
  refine ⟨?_, ⟨rfl, by simp [rtsds_read], by simp [rtsds_read]⟩,
    hmask val mask, hmask val 0xffff⟩
  simp only [rtsds_phy_set_mode_int]
  by_cases h1 : (rtsds_run_event c sid RTSDS_EVENT_PRE_SET_MODE).1 ≠ 0
  · rw [if_pos h1]
    exact ⟨(rtsds_run_event c sid RTSDS_EVENT_PRE_SET_MODE).2, rfl, hpre.1, hpre.2⟩
  · rw [if_neg h1]
    by_cases h2 : c.setModeFn sid hwmode ≠ 0
    · rw [if_pos h2]
      refine ⟨(rtsds_run_event c sid RTSDS_EVENT_PRE_SET_MODE).2
        ++ [CtrlEvent.setModeCall sid hwmode], by simp, ?_, ?_⟩
      · simp [List.mem_append, hpre.1]
      · simp [List.mem_append, hpre.2]
    · rw [if_neg h2]
      have hpost := rtsds_run_event_no_lock
        { c with modeCache := fun i => if i = sid then phymode else c.modeCache i }
        sid RTSDS_EVENT_POST_SET_MODE
      refine ⟨(rtsds_run_event c sid RTSDS_EVENT_PRE_SET_MODE).2
        ++ CtrlEvent.setModeCall sid hwmode
          :: (rtsds_run_event
            { c with modeCache := fun i => if i = sid then phymode else c.modeCache i }
            sid RTSDS_EVENT_POST_SET_MODE).2, by simp, ?_, ?_⟩
      · simp [List.mem_append, hpre.1, hpost.1]
      · simp [List.mem_append, hpre.2, hpost.2]

/-- Counterexample for C9 as stated: the Lane Handle read and masked-write
paths perform backend register accesses (here lane 0's link-status page 2,
register 1, and a masked write on the managed lane 0) with no lock
acquisition at all in their traces. -/
theorem rtsds_lock_bypass_c9_cex :
    (rtsds_read ctrlZ 0 2 1).2 = [CtrlEvent.readCall 0 2 1] ∧
    CtrlEvent.lock ∉ (rtsds_read ctrlZ 0 2 1).2 ∧
    CtrlEvent.unlock ∉ (rtsds_read ctrlZ 0 2 1).2 ∧
    (rtsds_mask ctrlZ 0 0 3 0x10 0xffff).2
      = [CtrlEvent.maskCall 0 0 3 0x10 0xffff 0] ∧
    CtrlEvent.lock ∉ (rtsds_mask ctrlZ 0 0 3 0x10 0xffff).2 ∧
    CtrlEvent.unlock ∉ (rtsds_mask ctrlZ 0 0 3 0x10 0xffff).2 ∧
    (rtsds_write ctrlZ 0 0 3 0x10).2
      = [CtrlEvent.maskCall 0 0 3 0x10 0xffff 0] ∧
    CtrlEvent.lock ∉ (rtsds_write ctrlZ 0 0 3 0x10).2 ∧
    CtrlEvent.unlock ∉ (rtsds_write ctrlZ 0 0 3 0x10).2 :=
  ⟨rfl, by decide, by decide, by decide, by decide, by decide, by decide,
    by decide, by decide⟩

/-- Witness for C9 (amended) on `ctrlZ`. -/
theorem rtsds_lock_held_c9_witness :
    (∃ mid, (rtsds_phy_set_mode_int ctrlZ 0 1 2).2.2
        = CtrlEvent.lock :: mid ++ [CtrlEvent.unlock] ∧
      CtrlEvent.lock ∉ mid ∧ CtrlEvent.unlock ∉ mid) ∧
    ((rtsds_read ctrlZ 0 3 4).2 = [CtrlEvent.readCall 0 3 4] ∧
      CtrlEvent.lock ∉ (rtsds_read ctrlZ 0 3 4).2 ∧
      CtrlEvent.unlock ∉ (rtsds_read ctrlZ 0 3 4).2) ∧
    (CtrlEvent.lock ∉ (rtsds_mask ctrlZ 0 3 4 5 6).2 ∧
      CtrlEvent.unlock ∉ (rtsds_mask ctrlZ 0 3 4 5 6).2) ∧
    (CtrlEvent.lock ∉ (rtsds_write ctrlZ 0 3 4 5).2 ∧
      CtrlEvent.unlock ∉ (rtsds_write ctrlZ 0 3 4 5).2) :=
  rtsds_lock_held_c9 ctrlZ 0 1 2 3 4 5 6

/-! ## C5: indirect-bus poll budget and timeout -/

/-- When the busy bit never clears, the poll loop exits with a spent budget
after exactly `cnt` status reads (entering with counter `cnt + 1`), with no
data-register read and no write at all. -/
theorem rtsds_93xx_poll_step (o : Nat → Nat → Nat) (t n : Nat)
    (hb : o t 0 &&& 1 ≠ 0) :
    rtsds_93xx_poll o t (n + 1 + 1)
      = ((rtsds_93xx_poll o (t + 1) (n + 1)).1,
         (rtsds_93xx_poll o (t + 1) (n + 1)).2.1,
         IOEvent.rd32 0 :: IOEvent.sleepRange 50 60
           :: (rtsds_93xx_poll o (t + 1) (n + 1)).2.2) := by
  conv_lhs => rw [rtsds_93xx_poll]
  rw [if_neg (Nat.succ_ne_zero n), if_pos hb]

theorem rtsds_93xx_poll_busy (o : Nat → Nat → Nat) (hbusy : ∀ t, o t 0 &&& 1 ≠ 0) :
    ∀ (cnt t : Nat),
      (rtsds_93xx_poll o t (cnt + 1)).1 = 0 ∧
      countRd 0 (rtsds_93xx_poll o t (cnt + 1)).2.2 = cnt ∧
      countRd 4 (rtsds_93xx_poll o t (cnt + 1)).2.2 = 0 ∧
      countWr 0 (rtsds_93xx_poll o t (cnt + 1)).2.2 = 0 := by
  intro cnt
  induction cnt with
  | zero =>
    intro t
    exact ⟨rfl, rfl, rfl, rfl⟩
  | succ n ih =>
    intro t
    rw [rtsds_93xx_poll_step o t n (hbusy t)]
    obtain ⟨h1, h2, h3, h4⟩ := ih (t + 1)
    refine ⟨h1, ?_, ?_, ?_⟩ <;> simp [countRd, countWr, h2, h3, h4, Nat.add_comm]

/-- C5 (amended): on the RTL930x indirect bus, when the busy bit never
clears both read and masked write poll the busy bit exactly 99 times (the
`while (--cnt && ...)` loop with cnt = 100 performs 99 status reads), then
return -EIO having issued exactly one bus command and never touching the
data register afterwards. -/
theorem rtsds_930x_timeout_c5 (o : Nat → Nat → Nat) (t sid page reg val mask : Nat)
    (hbusy : ∀ u, o u 0 &&& 1 ≠ 0)
    (hs : sid ≤ 11) (hp : page ≤ 63) (hr : reg ≤ 31) :
    ((rtsds_930x_read o t sid page reg).1 = -5 ∧
      countRd 0 (rtsds_930x_read o t sid page reg).2.2 = 99 ∧
      countRd 4 (rtsds_930x_read o t sid page reg).2.2 = 0 ∧
      countWr 0 (rtsds_930x_read o t sid page reg).2.2 = 1) ∧
    ((rtsds_930x_mask o t sid page reg val mask).1 = -5 ∧
      countRd 0 (rtsds_930x_mask o t sid page reg val mask).2.2 = 99 ∧
      countRd 4 (rtsds_930x_mask o t sid page reg val mask).2.2 = 0 ∧
      countWr 0 (rtsds_930x_mask o t sid page reg val mask).2.2 = 1) := by
  have hread : ∀ u,
      (rtsds_930x_read o u sid page reg).1 = -5 ∧
      countRd 0 (rtsds_930x_read o u sid page reg).2.2 = 99 ∧
      countRd 4 (rtsds_930x_read o u sid page reg).2.2 = 0 ∧
      countWr 0 (rtsds_930x_read o u sid page reg).2.2 = 1 := by
    intro u
    have hpoll := rtsds_93xx_poll_busy o hbusy 99 u
    norm_num at hpoll
    obtain ⟨h1, h2, h3, h4⟩ := hpoll
    simp only [rtsds_930x_read]
    rw [if_neg (by omega : ¬(sid > 11 ∨ page > 63 ∨ reg > 31)),
      if_neg (by simp [h1] : ¬((rtsds_93xx_poll o u 100).1 ≠ 0))]
    refine ⟨rfl, ?_, ?_, ?_⟩ <;> simp [countRd, countWr, h2, h3, h4]
  refine ⟨hread t, ?_⟩
  simp only [rtsds_930x_mask]
  rw [if_neg (by omega : ¬(sid > 11 ∨ page > 63 ∨ reg > 31))]
  by_cases hm : mask % 2 ^ 32 ≠ 0xffff
  · rw [if_pos hm]
    obtain ⟨h1, h2, h3, h4⟩ := hread t
    rw [if_pos (by rw [h1]; norm_num :
      (rtsds_930x_read o t sid page reg).1 < 0)]
    exact ⟨rfl, h2, h3, h4⟩
  · rw [if_neg hm]
    have hpoll := rtsds_93xx_poll_busy o hbusy 99 t
    norm_num at hpoll
    obtain ⟨h1, h2, h3, h4⟩ := hpoll
    rw [if_neg (by simp [h1] : ¬((rtsds_93xx_poll o t 100).1 ≠ 0))]
    refine ⟨rfl, ?_, ?_, ?_⟩ <;> simp [countRd, countWr, h2, h3, h4]

set_option maxRecDepth 4000 in
/-- Counterexample for C5 as stated: with the busy bit stuck, the RTL930x
read polls the busy bit 99 times before giving up, not 100. -/
theorem rtsds_930x_poll_budget_c5_cex :
    (rtsds_930x_read alwaysBusy 0 0 0 0).1 = -5 ∧
    countRd 0 (rtsds_930x_read alwaysBusy 0 0 0 0).2.2 = 99 ∧
    countRd 0 (rtsds_930x_read alwaysBusy 0 0 0 0).2.2 ≠ 100 :=
  ⟨by decide, by decide, by decide⟩

/-- Witness for C5 (amended) on the always-busy oracle. -/
theorem rtsds_930x_timeout_c5_witness :
    ((rtsds_930x_read alwaysBusy 0 3 5 7).1 = -5 ∧
      countRd 0 (rtsds_930x_read alwaysBusy 0 3 5 7).2.2 = 99 ∧
      countRd 4 (rtsds_930x_read alwaysBusy 0 3 5 7).2.2 = 0 ∧
      countWr 0 (rtsds_930x_read alwaysBusy 0 3 5 7).2.2 = 1) ∧
    ((rtsds_930x_mask alwaysBusy 0 3 5 7 2 0xffff).1 = -5 ∧
      countRd 0 (rtsds_930x_mask alwaysBusy 0 3 5 7 2 0xffff).2.2 = 99 ∧
      countRd 4 (rtsds_930x_mask alwaysBusy 0 3 5 7 2 0xffff).2.2 = 0 ∧
      countWr 0 (rtsds_930x_mask alwaysBusy 0 3 5 7 2 0xffff).2.2 = 1) :=
  rtsds_930x_timeout_c5 alwaysBusy 0 3 5 7 2 0xffff
    (fun _ => by show (1 : Nat) &&& 1 ≠ 0; decide)
    (by decide) (by decide) (by decide)
